import Mathlib

set_option maxHeartbeats 1000000

/-!
Verification development for `reupload_with_map.py`: a shallow embedding of
the reupload pipeline (`process_reupload`), the identifier-map store
(`save_id_map`), and the asset-reference extractor (`extract_animation_ids`),
with the HTTP transport modeled as an oracle supplying each call's outcome.
Machine integers are `Int`; fallible Python code returns `Except`; the
uncaught-exception path is the `.error` case.
-/

/-- JSON values as returned by `response.json()` in the source. Numbers are
restricted to integers, the only kind the reupload pipeline's claims
exercise; objects are association lists with the unique keys of a Python
dict. -/
inductive Json where
  | null : Json
  | bool : Bool → Json
  | num : Int → Json
  | str : String → Json
  | arr : List Json → Json
  | obj : List (String × Json) → Json

/-- Python `dict.get(k)` on a JSON value: the binding of `k` when the value
is an object holding one (keys are unique), `none` (Python `None`)
otherwise. -/
def Json.get? : Json → String → Option Json
  | .obj fields, k => List.lookup k fields
  | _, _ => none

/-- Python truthiness of a JSON value: `None`, `False`, `0`, `""`, `[]` and
an empty dict are falsy, everything else truthy. -/
def Json.truthy : Json → Bool
  | .null => false
  | .bool b => b
  | .num n => n != 0
  | .str s => !s.toList.isEmpty
  | .arr xs => !xs.isEmpty
  | .obj fs => !fs.isEmpty

/-- Truthiness of a `dict.get` result (`none` models Python `None`). -/
def optTruthy : Option Json → Bool
  | none => false
  | some j => j.truthy

/-- The whitespace characters Python's `int(str)` strips. -/
def pySpace (c : Char) : Bool :=
  c = ' ' || c = '\t' || c = '\n' || c = '\r' || c = '\x0b' || c = '\x0c'

/-- Continuation of the digit run of Python's `int(str)` grammar: decimal
digits with single underscores allowed between digits. -/
def digitsRun (acc : Nat) : List Char → Option Nat
  | [] => some acc
  | c :: rest =>
    if c.isDigit then digitsRun (acc * 10 + (c.toNat - 48)) rest
    else if c = '_' then
      match rest with
      | [] => none
      | r :: rest2 =>
        if r.isDigit then digitsRun (acc * 10 + (r.toNat - 48)) rest2 else none
    else none

/-- A nonempty digit run (underscores only between digits). -/
def digitsVal? : List Char → Option Nat
  | [] => none
  | c :: rest => if c.isDigit then digitsRun (c.toNat - 48) rest else none

/-- Model of Python `int(s)` on an ASCII string (line 140 of the source):
strip surrounding whitespace, optional sign, then a decimal digit run;
`none` models the `ValueError` branch. Non-ASCII digits are outside the
model's scope. -/
def pyInt? (s : String) : Option Int :=
  let l1 := s.toList.dropWhile pySpace
  let l := (l1.reverse.dropWhile pySpace).reverse
  match l with
  | [] => none
  | c :: rest =>
    if c = '+' then (digitsVal? rest).map (fun n => (n : Int))
    else if c = '-' then (digitsVal? rest).map (fun n => -(n : Int))
    else (digitsVal? (c :: rest)).map (fun n => (n : Int))

/-- Python `int(x)` applied to a JSON value (used by `save_id_map`,
lines 184-185): numbers pass through, booleans coerce to 0/1, strings are
parsed, anything else is a `TypeError`. -/
def pyIntOf : Json → Except String Int
  | .num n => .ok n
  | .bool b => .ok (if b then 1 else 0)
  | .str s =>
    match pyInt? s with
    | some n => .ok n
    | none => .error "ValueError"
  | _ => .error "TypeError"

/-- Outcome of `download_asset` (lines 83-107): the HTTP layer is an oracle,
so a call either yields the body bytes plus derived filename or the error
string of the failure branches. -/
inductive FetchResult where
  | ok : List Nat → String → FetchResult
  | err : String → FetchResult

/-- Outcome of `upload_asset` (lines 109-131): either the parsed JSON body
or the error string of the failure branches (status >= 400, request
exception, or non-JSON body). -/
inductive PublishResult where
  | ok : Json → PublishResult
  | err : String → PublishResult

/-- The download oracle: what `download_asset` returns for a given id. -/
abbrev FetchFn := Int → FetchResult

/-- The upload oracle: what `upload_asset` returns for given bytes,
filename, display name, description and asset type. -/
abbrev PublishFn := List Nat → String → String → String → String → PublishResult

/-- Observable side effects of one `process_reupload` run: the network calls
it issues and the `time.sleep` pauses it takes, in order. -/
inductive Event where
  | fetch : Int → Event
  | publish : String → String → Event
  | sleep : Nat → Event
deriving DecidableEq

/-- Lines 160-162 of the source:
`new_id = res.get("assetId") or res.get("id") or res.get("data", ...).get("assetId")`
guarded by `isinstance(res, dict)`. The Python `or` chain takes the first
truthy operand; when the first two are falsy and the `data` value is present
but not a dict, `.get` raises `AttributeError`, modeled as `.error`. -/
def resolve_new_id (res : Json) : Except String (Option Json) :=
  match res with
  | .obj _ =>
    if optTruthy (res.get? "assetId") then .ok (res.get? "assetId")
    else if optTruthy (res.get? "id") then .ok (res.get? "id")
    else
      match (res.get? "data").getD (Json.obj []) with
      | .obj dfs => .ok ((Json.obj dfs).get? "assetId")
      | _ => .error "AttributeError"
  | _ => .ok none

/-- Lines 134-174, `process_reupload(asset_id, dname, ddesc, atype)`:
validate the id with `int()` (only `ValueError` is caught), download,
upload, resolve the new id from the response, and sleep one second after a
completed upload. Returns the trace of network/sleep effects together with
either the Python `(success, new_id)` tuple or an uncaught exception.
Console prints are not modeled. -/
def process_reupload (asset_id dname ddesc atype : String)
    (fetch : FetchFn) (publish : PublishFn) :
    List Event × Except String (Bool × Option Json) :=
  match pyInt? asset_id with
  | none => ([], .ok (false, none))
  | some asset_id_int =>
    match fetch asset_id_int with
    | .err _ => ([.fetch asset_id_int], .ok (false, none))
    | .ok bytes filename =>
      match publish bytes filename dname ddesc atype with
      | .err _ => ([.fetch asset_id_int, .publish filename dname], .ok (false, none))
      | .ok res =>
        match resolve_new_id res with
        | .error e => ([.fetch asset_id_int, .publish filename dname], .error e)
        | .ok new_id =>
          if optTruthy new_id then
            ([.fetch asset_id_int, .publish filename dname, .sleep 1], .ok (true, new_id))
          else
            ([.fetch asset_id_int, .publish filename dname, .sleep 1], .ok (false, none))

/-- Lines 177-194, `save_id_map(id_pairs_list)`: build `map_data` by
coercing each recorded pair with `int()` (lines 183-185). The first failing
coercion is the uncaught exception the loop would raise, since the loop runs
before the `try` block around the file write. Each entry keeps the dict
shape — the bindings ("oldId", o) and ("newId", n) with integer values —
and the list keeps insertion order. -/
def save_id_map : List (Json × Json) → Except String (List (List (String × Int)))
  | [] => .ok []
  | (old, new) :: rest =>
    match pyIntOf old with
    | .error e => .error e
    | .ok o =>
      match pyIntOf new with
      | .error e => .error e
      | .ok n =>
        match save_id_map rest with
        | .error e => .error e
        | .ok entries => .ok ([("oldId", o), ("newId", n)] :: entries)

/-- Model of Python `json.dumps(doc, indent=2)` for an array of flat objects
with ASCII keys and integer values — the only document shape `save_id_map`
serializes (line 190). Array items sit at one indent level (2 spaces), keys
at two (4 spaces); items are separated by a comma plus newline and keys are
rendered as `"key": value`. -/
def dumps_indent2 (doc : List (List (String × Int))) : String :=
  match doc with
  | [] => "[]"
  | objs =>
    "[\n" ++
      String.intercalate ",\n" (objs.map (fun fields =>
        match fields with
        | [] => "  \x7b\x7d"
        | fs => "  \x7b\n" ++
            String.intercalate ",\n"
              (fs.map (fun kv => "    \"" ++ kv.1 ++ "\": " ++ toString kv.2)) ++
            "\n  \x7d")) ++
    "\n]"

/-- The exact text `json.dump(map_data, f, indent=2)` writes to
`reupload_map.json` (lines 189-190), or the coercion error. -/
def save_id_map_text (id_pairs_list : List (Json × Json)) : Except String String :=
  (save_id_map id_pairs_list).map dumps_indent2

/-- Lines 275-277 of the manual-mode loop:
`success, new_id = process_reupload(...)` followed by
`if success and new_id: all_id_pairs.append((aid, new_id))`. The old id is
appended as the entered string, the new id as the JSON value taken from the
publish response. -/
def session_step (pairs : List (String × Json)) (aid dname ddesc atype : String)
    (fetch : FetchFn) (publish : PublishFn) : List (String × Json) :=
  match (process_reupload aid dname ddesc atype fetch publish).2 with
  | .ok (true, some v) => if v.truthy then pairs ++ [(aid, v)] else pairs
  | _ => pairs

/-- The persisted artifact of a session: `save_id_map(all_id_pairs)` (lines
259, 264), where each accumulated old id is a Python string. -/
def persist_session (pairs : List (String × Json)) :
    Except String (List (List (String × Int))) :=
  save_id_map (pairs.map (fun p => (Json.str p.1, p.2)))

/-- Python `s.isdigit()` restricted to ASCII: nonempty and all decimal
digits. -/
def pyIsDigit (s : String) : Bool := !s.toList.isEmpty && s.toList.all Char.isDigit

/-- Whether a JSON value is a decimal digit string or an integer — the only
shapes the session loops ever hand to `save_id_map` in normal operation. -/
def digitStrOrInt : Json → Bool
  | .num _ => true
  | .str s => pyIsDigit s
  | _ => false

/-- The integer `int(x)` yields when the coercion succeeds (0 otherwise;
only used where success is proved). -/
def pyIntD (v : Json) : Int := ((pyIntOf v).toOption).getD 0

/-- Python's `sub in s` substring test on character lists. -/
def containsSub (sub : List Char) : List Char → Bool
  | [] => sub.isPrefixOf ([] : List Char)
  | c :: rest => sub.isPrefixOf (c :: rest) || containsSub sub rest

/-- Python's `sub in s` substring test on strings (used at lines 73 and
76). -/
def strContains (s sub : String) : Bool := containsSub sub.toList s.toList

/-- Python `s.replace(pat, rep)`: replace every non-overlapping occurrence
left to right. Structured with a fuel argument equal to the input length so
the recursion is structural; the fuel never runs out because each step
consumes at least one character. -/
def replaceAllAux (pat rep : List Char) : Nat → List Char → List Char
  | _, [] => []
  | 0, l => l
  | fuel + 1, c :: rest =>
    if !pat.isEmpty && pat.isPrefixOf (c :: rest) then
      rep ++ replaceAllAux pat rep fuel ((c :: rest).drop pat.length)
    else
      c :: replaceAllAux pat rep fuel rest

/-- Python `s.replace(pat, rep)` on strings (line 77 of the source, where
`pat` is the nonempty literal scheme marker). -/
def pyReplace (s pat rep : String) : String :=
  String.mk (replaceAllAux pat.toList rep.toList s.toList.length s.toList)

/-- Python `set.add`, on a list kept duplicate-free in insertion order (the
source's `set` is unordered; only membership is significant). -/
def addId (ids : List String) (v : String) : List String :=
  if ids.contains v then ids else ids ++ [v]

/-- A property element of the scene document: its tag, its optional `name`
attribute, and its optional text content (`prop.tag`, `prop.attrib.get("name")`,
`prop.text` at lines 73-74). -/
structure RbxProp where
  tag : String
  nameAttr : Option String
  text : Option String

/-- An `Item` element: `item.find("Properties")` is `none` when the element
has no `Properties` child (line 71), otherwise the list of its property
children. -/
structure RbxItem where
  properties : Option (List RbxProp)

/-- Lines 60-80, `extract_animation_ids(rbxl_path)`: the input is the
outcome of `ET.parse` — `.error` when the document is unparseable (the
`except` branch at lines 64-66 returns an empty set after printing the
error), `.ok` with the flattened `root.findall(".//Item")` list otherwise.
For every property whose tag or `name` attribute contains `"AnimationId"`,
take its truthy text, strip `"rbxassetid://"` by global replace when the
marker occurs anywhere, and keep the value when all digits remain. -/
def extract_animation_ids (doc : Except String (List RbxItem)) : List String :=
  match doc with
  | .error _ => []
  | .ok items =>
    items.foldl (fun acc item =>
      match item.properties with
      | none => acc
      | some props =>
        props.foldl (fun acc2 prop =>
          if strContains prop.tag "AnimationId"
              || strContains (prop.nameAttr.getD "") "AnimationId" then
            match prop.text with
            | some value =>
              if !value.toList.isEmpty then
                let v := if strContains value "rbxassetid://"
                         then pyReplace value "rbxassetid://" "" else value
                if pyIsDigit v then addId acc2 v else acc2
              else acc2
            | none => acc2
          else acc2) acc) []

/-- A decimal digit is none of the whitespace characters `int(str)`
strips. -/
theorem digit_not_pySpace (c : Char) (h : c.isDigit = true) : pySpace c = false := by
  simp only [Char.isDigit, Bool.and_eq_true, decide_eq_true_eq] at h
  obtain ⟨h1, h2⟩ := h
  simp only [pySpace, Bool.or_eq_false_iff, decide_eq_false_iff_not]
  refine ⟨⟨⟨⟨⟨?_, ?_⟩, ?_⟩, ?_⟩, ?_⟩, ?_⟩ <;> rintro rfl <;> revert h1 <;> decide

/-- `dropWhile pySpace` leaves an all-digit list unchanged. -/
theorem dropWhile_pySpace_digits (l : List Char) (h : l.all Char.isDigit = true) :
    l.dropWhile pySpace = l := by
  cases l with
  | nil => rfl
  | cons c rest =>
    have hc : c.isDigit = true := by
      simp only [List.all_cons, Bool.and_eq_true] at h
      exact h.1
    simp [List.dropWhile_cons, digit_not_pySpace c hc]

/-- The digit-run parser of the `int(str)` model succeeds on all-digit
input. -/
theorem digitsRun_all_digits (l : List Char) (h : l.all Char.isDigit = true) (acc : Nat) :
    ∃ n, digitsRun acc l = some n := by
  induction l generalizing acc with
  | nil => exact ⟨acc, rfl⟩
  | cons c rest ih =>
    simp only [List.all_cons, Bool.and_eq_true] at h
    obtain ⟨hc, hrest⟩ := h
    have hstep : digitsRun acc (c :: rest) = digitsRun (acc * 10 + (c.toNat - 48)) rest := by
      rw [digitsRun.eq_def]
      simp [hc]
    rw [hstep]
    exact ih hrest _

/-- The `int(str)` model succeeds on every nonempty all-digit character
list, yielding a natural number. -/
theorem pyInt?_of_digit_list (l : List Char) (hne : l ≠ [])
    (hdig : l.all Char.isDigit = true) :
    ∃ n : Nat, pyInt? (String.mk l) = some (n : Int) := by
  have htol : (String.mk l).toList = l := rfl
  cases l with
  | nil => exact absurd rfl hne
  | cons c rest =>
    have hc : c.isDigit = true := by
      simp only [List.all_cons, Bool.and_eq_true] at hdig
      exact hdig.1
    have hrevdig : (c :: rest).reverse.all Char.isDigit = true := by
      rw [List.all_reverse]
      exact hdig
    have hplus : ¬ c = '+' := by rintro rfl; exact absurd hc (by decide)
    have hminus : ¬ c = '-' := by rintro rfl; exact absurd hc (by decide)
    simp only [pyInt?, htol, dropWhile_pySpace_digits _ hdig,
      dropWhile_pySpace_digits _ hrevdig, List.reverse_reverse]
    simp only [if_neg hplus, if_neg hminus, digitsVal?, if_pos hc]
    obtain ⟨n, hn⟩ := digitsRun_all_digits rest (by
      simp only [List.all_cons, Bool.and_eq_true] at hdig
      exact hdig.2) (c.toNat - 48)
    exact ⟨n, by simp [hn]⟩

/-- `int()` succeeds on every digit string and every integer, yielding the
value `pyIntD` denotes. -/
theorem pyIntOf_digitStrOrInt (v : Json) (h : digitStrOrInt v = true) :
    pyIntOf v = .ok (pyIntD v) := by
  cases v with
  | null => simp [digitStrOrInt] at h
  | bool b => simp [digitStrOrInt] at h
  | num n => rfl
  | str s =>
    simp only [digitStrOrInt, pyIsDigit, Bool.and_eq_true, Bool.not_eq_true'] at h
    obtain ⟨hne, hdig⟩ := h
    have hl : s.toList ≠ [] := by
      intro hnil
      rw [hnil] at hne
      simp at hne
    have hs : String.mk s.toList = s := by
      cases s
      rfl
    obtain ⟨n, hn⟩ := pyInt?_of_digit_list s.toList hl hdig
    rw [hs] at hn
    simp [pyIntOf, hn, pyIntD, Except.toOption]
  | arr xs => simp [digitStrOrInt] at h
  | obj fs => simp [digitStrOrInt] at h

/-- Claim C1, counterexample: the lookup does not let the *first present*
value win — in the response with a present top-level `assetId` of 0 and a
present `id` of 5, the pipeline resolves 5, because the Python `or` chain
skips present-but-falsy operands. -/
theorem C1_counterexample :
    (Json.obj [("assetId", Json.num 0), ("id", Json.num 5)]).get? "assetId"
        = some (Json.num 0) ∧
    (process_reupload "1" "n" "" "Model" (fun _ => .ok [] "a.bin")
        (fun _ _ _ _ _ => .ok (Json.obj [("assetId", Json.num 0), ("id", Json.num 5)]))).2
        = .ok (true, some (Json.num 5)) :=
  ⟨rfl, rfl⟩

/-- Claim C1 (amended): the new identifier is resolved by checking the
top-level `assetId` field, then the top-level `id` field, then the nested
`data.assetId` field, in that order, and the first present *truthy* value
wins (a present falsy value such as 0, null, "" or false is skipped by the
Python `or` chain); the three example responses resolve to 999, 5 and 7
respectively. -/
theorem C1_lookup_precedence (res : Json) :
    (optTruthy (res.get? "assetId") = true →
        resolve_new_id res = .ok (res.get? "assetId")) ∧
    (optTruthy (res.get? "assetId") = false → optTruthy (res.get? "id") = true →
        resolve_new_id res = .ok (res.get? "id")) ∧
    (optTruthy (res.get? "assetId") = false → optTruthy (res.get? "id") = false →
        ∀ dfs : List (String × Json), (res.get? "data").getD (Json.obj []) = Json.obj dfs →
          resolve_new_id res = .ok ((Json.obj dfs).get? "assetId")) ∧
    (process_reupload "1" "n" "" "Model" (fun _ => .ok [] "a.bin")
        (fun _ _ _ _ _ => .ok (Json.obj [("assetId", Json.num 999)]))).2
        = .ok (true, some (Json.num 999)) ∧
    (process_reupload "1" "n" "" "Model" (fun _ => .ok [] "a.bin")
        (fun _ _ _ _ _ => .ok (Json.obj [("id", Json.num 5)]))).2
        = .ok (true, some (Json.num 5)) ∧
    (process_reupload "1" "n" "" "Model" (fun _ => .ok [] "a.bin")
        (fun _ _ _ _ _ => .ok (Json.obj [("data", Json.obj [("assetId", Json.num 7)])]))).2
        = .ok (true, some (Json.num 7)) := by
  refine ⟨?_, ?_, ?_, rfl, rfl, rfl⟩
  · intro h
    cases res with
    | obj fs => simp [resolve_new_id, h]
    | null => simp [Json.get?, optTruthy] at h
    | bool b => simp [Json.get?, optTruthy] at h
    | num n => simp [Json.get?, optTruthy] at h
    | str s => simp [Json.get?, optTruthy] at h
    | arr xs => simp [Json.get?, optTruthy] at h
  · intro h1 h2
    cases res with
    | obj fs => simp [resolve_new_id, h1, h2]
    | null => simp [Json.get?, optTruthy] at h2
    | bool b => simp [Json.get?, optTruthy] at h2
    | num n => simp [Json.get?, optTruthy] at h2
    | str s => simp [Json.get?, optTruthy] at h2
    | arr xs => simp [Json.get?, optTruthy] at h2
  · intro h1 h2 dfs hdfs
    cases res with
    | obj fs => simp [resolve_new_id, h1, h2, hdfs]
    | null =>
      simp only [Json.get?, Option.getD] at hdfs
      injection hdfs with h3
      rw [← h3]
      rfl
    | bool b =>
      simp only [Json.get?, Option.getD] at hdfs
      injection hdfs with h3
      rw [← h3]
      rfl
    | num n =>
      simp only [Json.get?, Option.getD] at hdfs
      injection hdfs with h3
      rw [← h3]
      rfl
    | str s =>
      simp only [Json.get?, Option.getD] at hdfs
      injection hdfs with h3
      rw [← h3]
      rfl
    | arr xs =>
      simp only [Json.get?, Option.getD] at hdfs
      injection hdfs with h3
      rw [← h3]
      rfl

/-- Claim C1, witness for the amended theorem at the `id`-only response. -/
theorem C1_lookup_precedence_witness :
    resolve_new_id (Json.obj [("id", Json.num 5)]) = .ok (some (Json.num 5)) :=
  (C1_lookup_precedence (Json.obj [("id", Json.num 5)])).2.1 rfl rfl

/-- Claim C2, counterexample: the non-positive identifiers "0" and "-5"
pass `int()` unrejected and the pipeline makes the fetch network call for
them (the claim says no network call is made). -/
theorem C2_counterexample :
    (process_reupload "0" "n" "" "Model" (fun _ => FetchResult.err "HTTP 400")
        (fun _ _ _ _ _ => PublishResult.err "unused")).1 = [Event.fetch 0] ∧
    (process_reupload "-5" "n" "" "Model" (fun _ => FetchResult.err "HTTP 400")
        (fun _ _ _ _ _ => PublishResult.err "unused")).1 = [Event.fetch (-5)] :=
  ⟨rfl, rfl⟩

/-- Claim C2 (amended): an identifier that fails `int()` (non-numeric)
makes the pipeline return the failure tuple (False, None) with no network
call; but any identifier `int()` accepts — including non-positive ones such
as "0" or "-5" — proceeds straight to the fetch call, since positivity is
never checked. -/
theorem C2_invalid_identifier (aid dname ddesc atype : String)
    (fetch : FetchFn) (publish : PublishFn) :
    (pyInt? aid = none →
        process_reupload aid dname ddesc atype fetch publish = ([], .ok (false, none))) ∧
    (∀ n : Int, pyInt? aid = some n →
        (process_reupload aid dname ddesc atype fetch publish).1.head? = some (.fetch n)) := by
  constructor
  · intro h
    simp [process_reupload, h]
  · intro n h
    simp only [process_reupload, h]
    split
    · rfl
    · split
      · rfl
      · split
        · rfl
        · split <;> rfl

/-- Claim C2, witness for the amended theorem at the non-numeric input
"abc". -/
theorem C2_invalid_identifier_witness :
    process_reupload "abc" "n" "" "Model" (fun _ => FetchResult.err "e")
        (fun _ _ _ _ _ => PublishResult.err "e") = ([], .ok (false, none)) :=
  (C2_invalid_identifier "abc" "n" "" "Model" (fun _ => FetchResult.err "e")
    (fun _ _ _ _ _ => PublishResult.err "e")).1 rfl

/-- Claim C3, counterexample: when publish succeeds with body
{"foo": "bar"} the pipeline returns exactly (False, None) — the same
caller-visible value as a failed download and a failed upload — so the
missing-identifier failure neither carries the raw response nor is
distinguishable by the caller from DownloadFailed or UploadFailed. -/
theorem C3_counterexample :
    (process_reupload "123" "n" "" "Model" (fun _ => .ok [] "a.bin")
        (fun _ _ _ _ _ => .ok (Json.obj [("foo", Json.str "bar")]))).2
        = .ok (false, none) ∧
    (process_reupload "123" "n" "" "Model" (fun _ => .err "HTTP 404")
        (fun _ _ _ _ _ => .err "unused")).2 = .ok (false, none) ∧
    (process_reupload "123" "n" "" "Model" (fun _ => .ok [] "a.bin")
        (fun _ _ _ _ _ => .err "HTTP 500")).2 = .ok (false, none) :=
  ⟨rfl, rfl, rfl⟩

/-- Claim C3 (amended): when publish succeeds but the response resolves to
no truthy identifier, the pipeline returns the failure tuple (False, None)
after printing the raw response to the console; the returned value does not
carry the response and is identical to the values returned for a failed
fetch and for a failed publish, so the caller cannot distinguish the three
failures from the result. -/
theorem C3_identifier_not_found (aid dname ddesc atype : String) (n : Int)
    (bytes : List Nat) (fname m1 m2 : String) (res : Json) (v : Option Json)
    (publish : PublishFn)
    (hn : pyInt? aid = some n)
    (hres : resolve_new_id res = .ok v) (hv : optTruthy v = false) :
    (process_reupload aid dname ddesc atype (fun _ => .ok bytes fname)
        (fun _ _ _ _ _ => .ok res)).2 = .ok (false, none) ∧
    (process_reupload aid dname ddesc atype (fun _ => .err m1) publish).2
        = .ok (false, none) ∧
    (process_reupload aid dname ddesc atype (fun _ => .ok bytes fname)
        (fun _ _ _ _ _ => .err m2)).2 = .ok (false, none) := by
  refine ⟨?_, ?_, ?_⟩
  · simp [process_reupload, hn, hres, hv]
  · simp [process_reupload, hn]
  · simp [process_reupload, hn]

/-- Claim C3, witness for the amended theorem at the body {"foo": "bar"}. -/
theorem C3_identifier_not_found_witness :
    (process_reupload "123" "x" "" "Decal" (fun _ => .ok [0] "b.bin")
        (fun _ _ _ _ _ => .ok (Json.obj [("foo", Json.str "bar")]))).2
        = .ok (false, none) ∧
    (process_reupload "123" "x" "" "Decal" (fun _ => .err "HTTP 403")
        (fun _ _ _ _ _ => .err "x")).2 = .ok (false, none) ∧
    (process_reupload "123" "x" "" "Decal" (fun _ => .ok [0] "b.bin")
        (fun _ _ _ _ _ => .err "HTTP 502")).2 = .ok (false, none) :=
  C3_identifier_not_found "123" "x" "" "Decal" 123 [0] "b.bin" "HTTP 403" "HTTP 502"
    (Json.obj [("foo", Json.str "bar")]) none (fun _ _ _ _ _ => .err "x") rfl rfl rfl

/-- Claim C4: persisting any sequence of recorded integer (old, new) pairs
produces a JSON array of objects with integer `oldId` and `newId` fields in
insertion order, and recording (123, 456) then (789, 1011) serializes, with
2-space indentation, to exactly the expected array text in that order. -/
theorem C4_persist_map (pairs : List (Int × Int)) :
    save_id_map (pairs.map (fun p => (Json.num p.1, Json.num p.2)))
        = .ok (pairs.map (fun p => [("oldId", p.1), ("newId", p.2)])) ∧
    save_id_map_text [(Json.num 123, Json.num 456), (Json.num 789, Json.num 1011)]
        = .ok "[\n  \x7b\n    \"oldId\": 123,\n    \"newId\": 456\n  \x7d,\n  \x7b\n    \"oldId\": 789,\n    \"newId\": 1011\n  \x7d\n]" := by
  refine ⟨?_, rfl⟩
  induction pairs with
  | nil => rfl
  | cons p ps ih => simp only [List.map_cons, save_id_map, pyIntOf, ih]

/-- Claim C5, counterexample: on the missing-identifier failure path
(publish succeeded, body {"foo": "bar"} resolves to nothing) the pipeline
still sleeps one second before returning — the pause is not limited to the
success path. -/
theorem C5_counterexample :
    process_reupload "7" "n" "" "Model" (fun _ => .ok [] "a.bin")
        (fun _ _ _ _ _ => .ok (Json.obj [("foo", Json.str "bar")]))
      = ([.fetch 7, .publish "a.bin" "n", .sleep 1], .ok (false, none)) := rfl

/-- Claim C5 (amended): the fixed 1-second pause is imposed after every
publish call whose JSON body was obtained and resolved without an
exception — that is, on the success path and on the identifier-not-found
path alike — and on no earlier path (invalid identifier, failed download,
failed upload). -/
theorem C5_sleep_paths (aid dname ddesc atype : String)
    (fetch : FetchFn) (publish : PublishFn) :
    (pyInt? aid = none →
        (process_reupload aid dname ddesc atype fetch publish).1 = []) ∧
    (∀ (n : Int) (m : String), pyInt? aid = some n → fetch n = .err m →
        (process_reupload aid dname ddesc atype fetch publish).1 = [.fetch n]) ∧
    (∀ (n : Int) (bytes : List Nat) (fname m : String), pyInt? aid = some n →
        fetch n = .ok bytes fname → publish bytes fname dname ddesc atype = .err m →
        (process_reupload aid dname ddesc atype fetch publish).1
          = [.fetch n, .publish fname dname]) ∧
    (∀ (n : Int) (bytes : List Nat) (fname : String) (res : Json) (v : Option Json),
        pyInt? aid = some n → fetch n = .ok bytes fname →
        publish bytes fname dname ddesc atype = .ok res → resolve_new_id res = .ok v →
        (process_reupload aid dname ddesc atype fetch publish).1
          = [.fetch n, .publish fname dname, .sleep 1]) := by
  refine ⟨?_, ?_, ?_, ?_⟩
  · intro h
    simp [process_reupload, h]
  · intro n m hn hf
    simp [process_reupload, hn, hf]
  · intro n bytes fname m hn hf hp
    simp [process_reupload, hn, hf, hp]
  · intro n bytes fname res v hn hf hp hres
    simp only [process_reupload, hn, hf, hp, hres]
    split <;> rfl

/-- Claim C5, witness for the amended theorem on a successful run. -/
theorem C5_sleep_paths_witness :
    (process_reupload "8" "n" "" "Model" (fun _ => .ok [] "a.bin")
        (fun _ _ _ _ _ => .ok (Json.obj [("assetId", Json.num 9)]))).1
      = [.fetch 8, .publish "a.bin" "n", .sleep 1] :=
  (C5_sleep_paths "8" "n" "" "Model" (fun _ => .ok [] "a.bin")
      (fun _ _ _ _ _ => .ok (Json.obj [("assetId", Json.num 9)]))).2.2.2
    8 [] "a.bin" (Json.obj [("assetId", Json.num 9)]) (some (Json.num 9)) rfl rfl rfl rfl

/-- Claim C6: evaluation of the code at the failing input — publish
succeeds with the well-formed JSON body {"data": 5}, where `data` is
present but not an object, and `process_reupload` raises an uncaught
`AttributeError` instead of returning a discriminated result (its own
docstring promises a (success, new_id) tuple on every path). -/
theorem C6_attribute_error_bug :
    (process_reupload "123" "n" "" "Model" (fun _ => FetchResult.ok [] "a.bin")
        (fun _ _ _ _ _ => PublishResult.ok (Json.obj [("data", Json.num 5)]))).2
      = .error "AttributeError" := rfl

/-- Claim C7, counterexample: nothing enforces the persisted-map invariant —
if the platform's publish response echoes the old identifier (assetId 5 for
old id "5") the persisted map contains an entry with oldId = newId = 5, and
a response with assetId -7 persists a non-positive newId. -/
theorem C7_counterexample :
    persist_session (session_step [] "5" "n" "" "Model" (fun _ => .ok [] "a.bin")
        (fun _ _ _ _ _ => .ok (Json.obj [("assetId", Json.num 5)])))
      = .ok [[("oldId", 5), ("newId", 5)]] ∧
    persist_session (session_step [] "9" "n" "" "Model" (fun _ => .ok [] "a.bin")
        (fun _ _ _ _ _ => .ok (Json.obj [("assetId", Json.num (-7))])))
      = .ok [[("oldId", 9), ("newId", -7)]] :=
  ⟨rfl, rfl⟩

/-- Claim C7 (amended): a persisted mapping is exactly the `int()` coercion
of the recorded (old id string, resolved new id) pair — whatever truthy
value the platform returned — with no oldId-differs-from-newId check and no
positivity check anywhere between resolution and persistence. -/
theorem C7_persisted_pairs (aid dname ddesc atype fname : String) (n m : Int)
    (bytes : List Nat) (res v : Json)
    (hn : pyInt? aid = some n)
    (hres : resolve_new_id res = .ok (some v))
    (hv : v.truthy = true)
    (hm : pyIntOf v = .ok m) :
    persist_session (session_step [] aid dname ddesc atype
        (fun _ => .ok bytes fname) (fun _ _ _ _ _ => .ok res))
      = .ok [[("oldId", n), ("newId", m)]] := by
  have hstep : session_step [] aid dname ddesc atype
      (fun _ => .ok bytes fname) (fun _ _ _ _ _ => .ok res) = [(aid, v)] := by
    simp [session_step, process_reupload, hn, hres, optTruthy, hv]
  rw [hstep]
  have h1 : pyIntOf (Json.str aid) = .ok n := by simp [pyIntOf, hn]
  simp [persist_session, save_id_map, h1, hm]

/-- Claim C7, witness for the amended theorem: old id "5", response
assetId 42, persisted entry (5, 42). -/
theorem C7_persisted_pairs_witness :
    persist_session (session_step [] "5" "n" "" "Model" (fun _ => .ok [] "a.bin")
        (fun _ _ _ _ _ => .ok (Json.obj [("assetId", Json.num 42)])))
      = .ok [[("oldId", 5), ("newId", 42)]] :=
  C7_persisted_pairs "5" "n" "" "Model" "a.bin" 5 42 []
    (Json.obj [("assetId", Json.num 42)]) (Json.num 42) rfl rfl rfl rfl

/-- Claim C8: on a parseable document, a marker-tagged property with text
"rbxassetid://4827491" contributes 4827491, a property with value
"notanumber" is excluded, and a bare "12345" is included; on an unparseable
document the extractor returns the empty set instead of escalating (the
parse error is only printed). -/
theorem C8_extractor :
    extract_animation_ids (.ok
        [⟨some [⟨"AnimationId", none, some "rbxassetid://4827491"⟩,
                ⟨"Content", some "AnimationId", some "notanumber"⟩,
                ⟨"Content", some "AnimationId", some "12345"⟩]⟩])
      = ["4827491", "12345"] ∧
    extract_animation_ids (.error "ParseError: syntax error") = [] :=
  ⟨rfl, rfl⟩

/-- Claim C9: when every recorded pair is a decimal digit string or an
integer — the shapes the batch and manual loops accumulate — `save_id_map`
coerces both components with `int()` and the persisted entries carry the
resulting integer fields, one entry per pair in order. -/
theorem C9_int_coercion (pairs : List (Json × Json))
    (h : ∀ p ∈ pairs, digitStrOrInt p.1 = true ∧ digitStrOrInt p.2 = true) :
    save_id_map pairs
      = .ok (pairs.map (fun p => [("oldId", pyIntD p.1), ("newId", pyIntD p.2)])) := by
  induction pairs with
  | nil => rfl
  | cons p ps ih =>
    obtain ⟨h1, h2⟩ := h p (by simp)
    have hrest := ih (fun q hq => h q (by simp [hq]))
    obtain ⟨a, b⟩ := p
    simp only [save_id_map, pyIntOf_digitStrOrInt _ h1, pyIntOf_digitStrOrInt _ h2,
      hrest, List.map_cons]

/-- Claim C9, witness: the string old id "123" and the integer new id 456
persist as the integers 123 and 456. -/
theorem C9_int_coercion_witness :
    save_id_map [(Json.str "123", Json.num 456)]
      = .ok [[("oldId", 123), ("newId", 456)]] :=
  C9_int_coercion [(Json.str "123", Json.num 456)] (by decide)

/-- Claim C10: the scheme stripping is a global replace — every
non-overlapping occurrence of "rbxassetid://" anywhere in the value is
removed before the all-digits check, not only a leading prefix: the value
"123rbxassetid://456" becomes "123456" and is included in the extractor's
result, and both occurrences in "rbxassetid://12rbxassetid://34" are
removed. -/
theorem C10_global_replace :
    pyReplace "123rbxassetid://456" "rbxassetid://" "" = "123456" ∧
    pyReplace "rbxassetid://12rbxassetid://34" "rbxassetid://" "" = "1234" ∧
    extract_animation_ids (.ok
        [⟨some [⟨"AnimationId", none, some "123rbxassetid://456"⟩]⟩])
      = ["123456"] :=
  ⟨rfl, rfl, rfl⟩
